import Mathlib

/-!
# Transaction lifecycle and trade construction of the flare DeFAI agent

Shallow embedding of the transaction-staging dispatcher
(`src/flare_ai_defai/api/routes/chat.py`) and the BlazeSwap trade builder
(`src/flare_ai_defai/blockchain/blazedex.py`), together with theorems
settling the specification claims about them.

Modelling conventions:
* On-chain reads (token decimals, allowances, router quotes, gas price,
  nonces, wall-clock time, RPC acceptance) are collected in a `Chain`
  record of oracle functions; every read in the Python source becomes an
  application of the corresponding field.
* The external AI collaborators (intent classifier, parameter
  extraction) are modelled by passing their parsed results as arguments;
  the Qdrant similarity search only augments a prompt and never changes
  control flow, so it does not appear.
* Python `float` values are modelled as rationals.  Where a claim is
  sensitive to IEEE-754 rounding, the binary64 round-to-nearest-even
  function `f64round` models each floating-point operation exactly; it
  is exact for every value arising in the evaluated computations.
* `blockchain/flare.py` (`FlareProvider`) is not part of the source
  tree; its queue operations and `create_send_flr_tx` are modelled from
  the specification and each such definition is marked
  `Modelled from the spec:`.
-/

/-- Python `int(...)` applied to a float: truncation toward zero. -/
def pyTrunc (q : ℚ) : ℤ :=
  if q < 0 then -Rat.floor (-q) else Rat.floor q

/-- Round a rational to the nearest integer, ties to even (the IEEE-754
default rounding used by every Python float operation). -/
def roundHalfEven (q : ℚ) : ℤ :=
  let f := Rat.floor q
  let r := q - (f : ℚ)
  if r < 1/2 then f
  else if 1/2 < r then f + 1
  else if f % 2 = 0 then f else f + 1

/-- Largest exponent `e` in `[-100, 101]` with `2^e ≤ q` (a binary-log
search by scan, total and kernel-computable; all values arising in the
evaluated computations lie well inside this range). -/
def floorLog2 (q : ℚ) : ℤ :=
  (List.range 202).foldl
    (fun acc i => if (2 : ℚ) ^ ((i : ℤ) - 100) ≤ q then (i : ℤ) - 100 else acc)
    (-100)

/-- Distance between consecutive binary64 values at magnitude `q`
(normal range; 52 fraction bits). -/
def f64ulp (q : ℚ) : ℚ :=
  (2 : ℚ) ^ (floorLog2 q - 52)

/-- Round a non-negative rational to the nearest IEEE-754 binary64 value
(round-to-nearest, ties-to-even), for magnitudes in the normal range.
This is the rounding applied by every Python float operation. -/
def f64round (q : ℚ) : ℚ :=
  (roundHalfEven (q / f64ulp q) : ℚ) * f64ulp q

/-- Models `int(amount * (10 ** decimals))` as it appears at
`blazedex.py:173` (`approve_token`), `blazedex.py:258`
(`get_swap_quote`) and `blazedex.py:370` (`create_swap_tx`), and at
`chat.py:377` and `chat.py:477`: the integer power is converted to a
binary64, multiplied with the float `amount` under binary64 rounding,
then truncated toward zero by `int(...)`. -/
def toBaseUnits (amount : ℚ) (decimals : ℕ) : ℤ :=
  pyTrunc (f64round (amount * f64round ((10 : ℚ) ^ decimals)))

/-! ## Token registry (`blazedex.py:25`) -/

/-- The static symbol → address registry `TOKEN_ADDRESSES`
(`blazedex.py:25-44`), in source order. -/
def TOKEN_ADDRESSES : List (String × String) := [
  ("FLR", "0x0000000000000000000000000000000000000000"),
  ("WFLR", "0x1D80c49BbBCd1C0911346656B529DF9E5c2F783d"),
  ("BNZ", "0xfD3449E8Ee31117a848D41Ee20F497a9bCb53164"),
  ("BUNNY", "0x1aa5282692398c078e71Fb3e4A85660d1BF8F586"),
  ("eUSDT", "0x96B41289D90444B8adD57e6F265DB5aE8651DF29"),
  ("eETH", "0xa76DCDdcE60a442d69Bac7158F3660f50921b122"),
  ("FINU", "0x282b88514A52FcAdCD92b742745398f3574697d4"),
  ("FLX", "0x22757fb83836e3F9F0F353126cACD3B1Dc82a387"),
  ("GEMIN", "0xb56718d45cffc7ca9d6b8b9e631f0657b971043f"),
  ("GFLR", "0x90e157A979074f9f2fe8B124Ba08e6F72dc812FC"),
  ("JOULE", "0xE6505f92583103AF7ed9974DEC451A7Af4e3A3bE"),
  ("PFL", "0xB5010D5Eb31AA8776b52C7394B76D6d627501C73"),
  ("PHIL", "0x932E691aA8c8306C4bB0b19F3f00a284371be8Ba"),
  ("POODLE", "0xC18f99CE6DD6278BE2D3f1e738Ed11623444aE33"),
  ("sFLR", "0x12e605bc104e93B45e1aD99F9e555f659051c2BB"),
  ("USDC.e", "0xFbDa5F676cB37624f28265A144A48B0d6e87d3b6"),
  ("USDT", "0x0B38e83B86d491735fEaa0a791F65c2B99535396"),
  ("USDX", "0x4A771Cc1a39FDd8AA08B8EA51F7Fd412e73B3d2B")]

/-- `BLAZESWAP_ROUTER_ADDRESS` (`blazedex.py:23`). -/
def BLAZESWAP_ROUTER_ADDRESS : String := "0xe3A1b355ca63abCBC9589334B5e609583C7BAa06"

/-- The zero address, denoting the native asset (`TOKEN_ADDRESSES["FLR"]`). -/
def ZERO_ADDRESS : String := "0x0000000000000000000000000000000000000000"

/-! ### Python string primitives
Python strings are sequences of code points, so `str.upper()`,
`str.lower()` and `str.startswith` are modelled directly on the
character list underlying a Lean `String` (adequate for the ASCII data
handled by this program, and equal to `String.toUpper`/`String.toLower`,
proved below). -/

/-- Python `str.upper()`. -/
def strUpper (s : String) : String := ⟨s.data.map Char.toUpper⟩

/-- Python `str.lower()`. -/
def strLower (s : String) : String := ⟨s.data.map Char.toLower⟩

/-- Python `str.startswith(p)`: code-point prefix test. -/
def strStartsWith (s p : String) : Bool := p.data.isPrefixOf s.data

theorem strUpper_eq_toUpper (s : String) : strUpper s = s.toUpper :=
  (String.map_eq _ _).symm

theorem strLower_eq_toLower (s : String) : strLower s = s.toLower :=
  (String.map_eq _ _).symm

/-- `BlazeDEXProvider.get_token_address` (`blazedex.py:104-120`):
uppercases the symbol, then looks it up in the static registry; raises
`ValueError` (modelled as `Except.error`) when absent. -/
def get_token_address (token_symbol : String) : Except String String :=
  let u := strUpper token_symbol
  match TOKEN_ADDRESSES.lookup u with
  | some a => Except.ok a
  | none => Except.error ("Unknown token symbol: " ++ u)

/-! ### Uppercasing is idempotent
`get_token_address` uppercases its argument, and several call sites pass
symbols that the caller has already uppercased (`blazedex.py:214-224`),
so the composite applies `str.upper` twice. -/

theorem char_toNat_ofNat_of_valid {n : ℕ} (h : n.isValidChar) :
    (Char.ofNat n).toNat = n := by
  rw [Char.ofNat, dif_pos h]
  rfl

theorem charToUpper_idem (c : Char) : c.toUpper.toUpper = c.toUpper := by
  by_cases h : c.toNat ≥ 97 ∧ c.toNat ≤ 122
  · have hv : (c.toNat - 32).isValidChar := Or.inl (by omega)
    have ht : (Char.ofNat (c.toNat - 32)).toNat = c.toNat - 32 :=
      char_toNat_ofNat_of_valid hv
    have h1 : c.toUpper = Char.ofNat (c.toNat - 32) := by
      rw [Char.toUpper]
      exact if_pos h
    rw [h1, Char.toUpper, ht,
      if_neg (by omega : ¬(c.toNat - 32 ≥ 97 ∧ c.toNat - 32 ≤ 122))]
  · have h1 : c.toUpper = c := by
      rw [Char.toUpper]
      exact if_neg h
    rw [h1]
    exact h1

theorem strUpper_idem (s : String) : strUpper (strUpper s) = strUpper s := by
  refine congrArg String.mk ?_
  show (s.data.map Char.toUpper).map Char.toUpper = s.data.map Char.toUpper
  rw [List.map_map]
  exact List.map_congr_left (fun a _ => charToUpper_idem a)

theorem get_token_address_strUpper (s : String) :
    get_token_address (strUpper s) = get_token_address s := by
  unfold get_token_address
  rw [strUpper_idem]

deriving instance DecidableEq for Except

example : get_token_address "usdt" = Except.ok "0x0B38e83B86d491735fEaa0a791F65c2B99535396" := by decide

example : get_token_address "eUSDT" = Except.error "Unknown token symbol: EUSDT" := by decide

unseal Rat.mul Rat.inv Rat.add Rat.sub in
example : pyTrunc (7/2) = 3 ∧ pyTrunc (-7/2) = -3 := by decide

unseal Rat.mul Rat.inv Rat.add Rat.sub in
example : roundHalfEven (5/2) = 2 ∧ roundHalfEven (7/2) = 4 := by decide

set_option maxRecDepth 100000 in
unseal Rat.mul Rat.inv Rat.add Rat.sub in
example : f64round (11/10) = 4953959590107546 / 4503599627370496 := by decide

set_option maxRecDepth 100000 in
unseal Rat.mul Rat.inv Rat.add Rat.sub in
example : toBaseUnits (f64round (11/10)) 18 = 1100000000000000128 := by decide

/-! ## On-chain reads and built transactions -/

/-- The on-chain reads performed by the program, as oracle functions:
`decimals` and `allowance(owner, spender)` are ERC20 `call`s keyed by
token address, `getAmountsOut amountIn path` is the router quote
(`none` models a reverting/failing call; `some out` models a successful
call returning `amounts_out` with `out = amounts_out[1]`), `gasPrice`
and `nonceOf` feed `build_transaction`, `timeNow` is `time.time()`,
`wNat` is the router `wNat()` read performed at provider construction
(`none` models the failing call), and `rpcOk` tells whether a raw
transaction submission is accepted. -/
structure Chain where
  decimals : String → ℕ
  allowance : String → String → String → ℤ
  getAmountsOut : ℤ → List String → Option ℤ
  gasPrice : ℕ
  nonceOf : String → ℕ
  timeNow : ℕ
  wNat : Option String
  rpcOk : Bool

/-- `BlazeDEXProvider.wflr_address` (`blazedex.py:78-89`): the router
`wNat()` result, or the registry WFLR address when that call fails. -/
def wflrAddress (c : Chain) : String :=
  c.wNat.getD "0x1D80c49BbBCd1C0911346656B529DF9E5c2F783d"

/-- A fully built, unsent transaction: the contract call (with its
arguments) together with the `build_transaction` fields, or a native
transfer. Constructor names follow the router functions selected in
`create_swap_tx` (`blazedex.py:409-445`). -/
inductive BuiltTx where
  | approve (tokenAddress spender : String) (amountWei : ℤ)
      (fromAddress : String) (gas gasPrice nonce : ℕ)
  | swapExactETHForTokens (minOut : ℤ) (path : List String)
      (recipient : String) (deadline : ℕ) (value : ℤ)
      (fromAddress : String) (gas gasPrice nonce : ℕ)
  | swapExactTokensForETH (amountIn minOut : ℤ) (path : List String)
      (recipient : String) (deadline : ℕ)
      (fromAddress : String) (gas gasPrice nonce : ℕ)
  | swapExactTokensForTokens (amountIn minOut : ℤ) (path : List String)
      (recipient : String) (deadline : ℕ)
      (fromAddress : String) (gas gasPrice nonce : ℕ)
  | nativeTransfer (toAddress : String) (valueWei : ℤ)
deriving DecidableEq, Repr

/-- `BlazeDEXProvider.approve_token` (`blazedex.py:147-195`):
uppercases the symbol, rejects the native token, resolves the address,
reads the token decimals, converts the amount to base units and builds
an `approve(router, amount_wei)` call with gas 100000. -/
def approve_token (c : Chain) (token_symbol : String) (amount : ℚ)
    (from_address : String) : Except String BuiltTx :=
  let u := strUpper token_symbol
  if u = "FLR" then Except.error "Cannot approve native FLR token"
  else
    match get_token_address u with
    | Except.error e => Except.error e
    | Except.ok token_address =>
      let decimals := c.decimals token_address
      let amount_wei := toBaseUnits amount decimals
      Except.ok (.approve token_address BLAZESWAP_ROUTER_ADDRESS amount_wei
        from_address 100000 c.gasPrice (c.nonceOf from_address))

/-- `BlazeDEXProvider.get_swap_quote` (`blazedex.py:197-314`):
uppercases both symbols, resolves them (resolution failures propagate,
`blazedex.py:313`), substitutes the wrapped address for the native
asset, reads the source decimals (18 when the substituted source
address is the zero address), converts the amount to base units,
queries `getAmountsOut` over the two-hop path and converts
`amounts_out[1]` back with the destination decimals (price impact 0).
When the router call fails it does NOT raise: it returns the simulated
quote `amount * 1.5` (`amount` when the symbols coincide) with price
impact `0.1` (`blazedex.py:286-303`). -/
def get_swap_quote (c : Chain) (from_token to_token : String) (amount : ℚ) :
    Except String (ℚ × ℚ) :=
  let ft := strUpper from_token
  let tt := strUpper to_token
  match get_token_address ft with
  | Except.error e => Except.error e
  | Except.ok fa =>
    match get_token_address tt with
    | Except.error e => Except.error e
    | Except.ok ta =>
      let from_address := if ft = "FLR" then wflrAddress c else fa
      let to_address := if tt = "FLR" then wflrAddress c else ta
      let from_decimals := if from_address = ZERO_ADDRESS then 18 else c.decimals from_address
      let to_decimals := if to_address = ZERO_ADDRESS then 18 else c.decimals to_address
      let amount_wei := toBaseUnits amount from_decimals
      let path := [from_address, to_address]
      match c.getAmountsOut amount_wei path with
      | some out1 =>
        Except.ok (f64round ((out1 : ℚ) / (10 : ℚ) ^ to_decimals), 0)
      | none =>
        Except.ok (if ft ≠ tt then f64round (amount * (3/2)) else amount,
          f64round (1/10))

/-- The Python default value of the `slippage` parameter of
`create_swap_tx` (`blazedex.py:322`): 0.5 percent. -/
def SLIPPAGE_DEFAULT : ℚ := 1/2

/-- `BlazeDEXProvider.create_swap_tx` (`blazedex.py:316-468`):
uppercases both symbols, resolves them, determines the direction by
comparing each against `"FLR"`, substitutes the wrapped address,
converts the amount with the source decimals (18 for native), obtains
the expected output from `getAmountsOut` and applies slippage under
binary64 arithmetic, `int(amounts_out[1] * (1 - slippage / 100))`; when
`getAmountsOut` fails it falls back to `get_swap_quote` and computes
`int(expected_output * (10 ** to_decimals) * (1 - slippage / 100))`.
Sets `deadline = int(time.time()) + 1200` and selects the router call
for the direction, a value-bearing `swapExactETHForTokens` when
swapping from the native asset.  Every failure is re-raised as
`Failed to create swap transaction: ...` (`blazedex.py:459-468`). -/
def create_swap_tx (c : Chain) (from_token to_token : String) (amount : ℚ)
    (from_address : String) (slippage : ℚ) : Except String BuiltTx :=
  let ft := strUpper from_token
  let tt := strUpper to_token
  let result : Except String BuiltTx :=
    match get_token_address ft with
    | Except.error e => Except.error e
    | Except.ok fa =>
      match get_token_address tt with
      | Except.error e => Except.error e
      | Except.ok ta =>
        let is_from_native := ft = "FLR"
        let is_to_native := tt = "FLR"
        let from_address_token := if is_from_native then wflrAddress c else fa
        let to_address_token := if is_to_native then wflrAddress c else ta
        let from_decimals := if is_from_native then 18 else c.decimals from_address_token
        let amount_wei := toBaseUnits amount from_decimals
        let path := [from_address_token, to_address_token]
        let min_output : Except String ℤ :=
          match c.getAmountsOut amount_wei path with
          | some out1 =>
            Except.ok (pyTrunc (f64round (f64round (out1 : ℚ) *
              f64round (1 - f64round (slippage / 100)))))
          | none =>
            match get_swap_quote c ft tt amount with
            | Except.error e => Except.error e
            | Except.ok (expected_output, _) =>
              let to_decimals := if is_to_native then 18 else c.decimals to_address_token
              Except.ok (pyTrunc (f64round (f64round (expected_output *
                f64round ((10 : ℚ) ^ to_decimals)) *
                f64round (1 - f64round (slippage / 100)))))
        match min_output with
        | Except.error e => Except.error e
        | Except.ok min_output_amount =>
          let deadline := c.timeNow + 1200
          if is_from_native then
            Except.ok (.swapExactETHForTokens min_output_amount path from_address
              deadline amount_wei from_address 200000 c.gasPrice (c.nonceOf from_address))
          else if is_to_native then
            Except.ok (.swapExactTokensForETH amount_wei min_output_amount path
              from_address deadline from_address 200000 c.gasPrice (c.nonceOf from_address))
          else
            Except.ok (.swapExactTokensForTokens amount_wei min_output_amount path
              from_address deadline from_address 200000 c.gasPrice (c.nonceOf from_address))
  match result with
  | Except.error e => Except.error ("Failed to create swap transaction: " ++ e)
  | Except.ok tx => Except.ok tx

/-! ## Session state and the staging queue

`blockchain/flare.py` (`FlareProvider`) is not part of the source tree;
only its call sites in `chat.py` are.  Its queue operations are
modelled from the specification (§4.5): the stage holds at most one
pending transaction, `stage` overwrites any existing entry, sending
clears the stage whether the RPC accepts or rejects, and `reset` clears
it unconditionally. -/

/-- The per-session mutable state visible to the dispatcher: the staged
transaction bound to its triggering message, and the pending-attestation
flag of the `Vtpm` collaborator. -/
structure SessionState where
  txQueue : List (String × BuiltTx)
  attestationRequested : Bool
deriving DecidableEq, Repr

/-- Modelled from the spec: `FlareProvider.add_tx_to_queue` (§4.5
`stage(message, tx)`) — overwrites any existing staged entry; at most
one transaction is pending per session. -/
def add_tx_to_queue (s : SessionState) (msg : String) (tx : BuiltTx) : SessionState :=
  { s with txQueue := [(msg, tx)] }

/-- Modelled from the spec: `FlareProvider.send_tx_in_queue` (§4.5
`sendStaged`) — submits the currently staged transaction and clears the
stage (also on RPC rejection, which is surfaced, not retried).  Returns
the submitted transaction and whether the RPC accepted it. -/
def send_tx_in_queue (c : Chain) (s : SessionState) :
    Option (BuiltTx × Bool) × SessionState :=
  match s.txQueue.getLast? with
  | some (_, tx) => (some (tx, c.rpcOk), { s with txQueue := [] })
  | none => (none, s)

/-- Modelled from the spec: `FlareProvider.reset` (§4.5 `reset()`) —
clears the stage unconditionally. -/
def blockchain_reset (s : SessionState) : SessionState :=
  { s with txQueue := [] }

/-- Outcome of one dispatcher step on an incoming message: a `/`
command, a confirmation that submitted the staged transaction (with the
RPC verdict), a reply to a pending attestation request, or fall-through
to the semantic router (`route_message` after `get_semantic_route`). -/
inductive ChatOutcome where
  | commandReset
  | commandUnknown
  | txSent (tx : BuiltTx) (rpcAccepted : Bool)
  | attestationReply
  | routed
deriving DecidableEq, Repr

/-- The `chat` endpoint dispatch (`chat.py:120-172`): messages starting
with `/` go to `handle_command` (`chat.py:183-197`; `/reset` calls
`blockchain.reset()`); otherwise, when the queue is non-empty and the
message equals `tx_queue[-1].msg`, the staged transaction is sent;
otherwise a pending attestation request consumes the message; otherwise
the message falls through to the semantic router. -/
def chatStep (c : Chain) (s : SessionState) (message : String) :
    ChatOutcome × SessionState :=
  if strStartsWith message "/" then
    if message = "/reset" then (.commandReset, blockchain_reset s)
    else (.commandUnknown, s)
  else
    match s.txQueue.getLast? with
    | some (m, _) =>
      if message = m then
        match send_tx_in_queue c s with
        | (some (tx, ok), s2) => (.txSent tx ok, s2)
        | (none, s2) => (.routed, s2)
      else if s.attestationRequested then
        (.attestationReply, { s with attestationRequested := false })
      else (.routed, s)
    | none =>
      if s.attestationRequested then
        (.attestationReply, { s with attestationRequested := false })
      else (.routed, s)

/-! ## The token swap handler (`chat.py:415-527`) -/

/-- Response of `handle_token_swap`, by source branch: the follow-up
question when extraction is incomplete (`chat.py:450-457`), the
two-step approval preview (`chat.py:496-500`), the swap preview
(`chat.py:511-520`), or the error response of the surrounding `try`
(`chat.py:524-527`; the user-facing wrapper text is omitted, the
carried string is the exception message). -/
inductive SwapResp where
  | followUp
  | approvalPreview (amount : ℚ) (token : String)
  | swapPreview (fromNative : Bool) (amount : ℚ) (fromToken toToken : String)
      (expected impact : ℚ)
  | errorResp (e : String)
deriving DecidableEq, Repr

/-- `ChatRouter.handle_token_swap` (`chat.py:415-527`).  The AI
extraction plus regex amount fallback (`chat.py:428-448`) is modelled
by the oracle argument `parsed`; `none` models a JSON response lacking
the keys, and the Python truthiness test
`if not all([from_token, to_token, amount])` (`chat.py:450`) is the
explicit emptiness/zero test below.  The handler quotes the swap, then
for any `from_token != "FLR"` reads the token decimals and the current
`allowance(address, router)`; when the allowance is below the requested
amount in base units it stages an approval transaction keyed by the
message `"Approve <token> for swap"` and returns the approval preview,
otherwise it builds the swap transaction (with the default slippage)
and stages it keyed by the incoming message itself. -/
def handle_token_swap (c : Chain) (s : SessionState) (message : String)
    (userAddress : String) (parsed : Option (String × String × ℚ)) :
    SwapResp × SessionState :=
  match parsed with
  | none => (.followUp, s)
  | some (from_token, to_token, amount) =>
    if from_token = "" ∨ to_token = "" ∨ amount = 0 then (.followUp, s)
    else
      match get_swap_quote c from_token to_token amount with
      | Except.error e => (.errorResp e, s)
      | Except.ok (expected_output, price_impact) =>
        let proceedToSwap : SwapResp × SessionState :=
          match create_swap_tx c from_token to_token amount userAddress SLIPPAGE_DEFAULT with
          | Except.error e => (.errorResp e, s)
          | Except.ok swap_tx =>
            (.swapPreview (from_token = "FLR") amount from_token to_token
              expected_output price_impact,
             add_tx_to_queue s message swap_tx)
        if from_token ≠ "FLR" then
          let from_token_for_approval := if from_token = "FLR" then "WFLR" else from_token
          match get_token_address from_token_for_approval with
          | Except.error e => (.errorResp e, s)
          | Except.ok token_address =>
            let decimals := c.decimals token_address
            let amount_in_token_units := toBaseUnits amount decimals
            let allowance := c.allowance token_address userAddress BLAZESWAP_ROUTER_ADDRESS
            if allowance < amount_in_token_units then
              match approve_token c from_token_for_approval amount userAddress with
              | Except.error e => (.errorResp e, s)
              | Except.ok approval_tx =>
                (.approvalPreview amount from_token_for_approval,
                 add_tx_to_queue s
                   ("Approve " ++ from_token_for_approval ++ " for swap") approval_tx)
            else proceedToSwap
        else proceedToSwap

/-! ## The send-token handler (`chat.py:273-413`) -/

/-- `ChatRouter.is_sanctioned_address` (`chat.py:754-764`): the
lowercased address is looked up in the sanctioned set, which
`load_sanctioned_addresses` (`chat.py:686-707`) loads already
lowercased; the set is modelled as the list of its elements. -/
def is_sanctioned_address (sanctioned : List String) (address : String) : Bool :=
  sanctioned.contains (strLower address)

/-- Python address-format check `0x` + 40 hex characters. -/
def isHexChar (ch : Char) : Bool :=
  ch.isDigit || ('a' ≤ ch && ch ≤ 'f') || ('A' ≤ ch && ch ≤ 'F')

/-- A 0x-prefixed 40-hex-character Ethereum address. -/
def isValidEthAddress (a : String) : Bool :=
  a.length == 42 && strStartsWith a "0x" && (a.data.drop 2).all isHexChar

/-- Modelled from the spec: `FlareProvider.create_send_flr_tx`
(`blockchain/flare.py` is absent from the source tree).  §4.4
`buildTransfer`: validates the exact address format (0x-prefixed, 40
hex characters), failing with `InvalidAddress` otherwise; fails with
`InvalidAmount` for a non-positive amount (§4.1); converts the amount
to base units with 18 decimals and sets it as `value` with empty
calldata. -/
def create_send_flr_tx (to_address : String) (amount : ℚ) : Except String BuiltTx :=
  if ¬ isValidEthAddress to_address then Except.error "InvalidAddress"
  else if amount ≤ 0 then Except.error "InvalidAmount"
  else Except.ok (.nativeTransfer to_address (toBaseUnits amount 18))

/-- Response of `handle_send_token`, by source branch: follow-up when
extraction is incomplete (`chat.py:296-306`, `chat.py:350-361`), the
refusal for a sanctioned recipient (`chat.py:313-314`), the two-step
approval preview (`chat.py:396-400`), the transfer preview
(`chat.py:408-413`), or a raised exception (surfaced by the endpoint
as HTTP 500, `chat.py:174-176`). -/
inductive SendResp where
  | followUp
  | refusal
  | approvalPreview (amount : ℚ) (token : String)
  | sendPreview (valueWei : ℤ) (toAddress : String)
  | errorResp (e : String)
deriving DecidableEq, Repr

/-- `ChatRouter.handle_send_token` (`chat.py:273-413`).  The two AI
extractions (`chat.py:290-309` and, after the prompt is augmented with
the Qdrant similarity results, `chat.py:345-364`) are modelled by the
oracle arguments `parse1` and `parse2`; `none` models the
`len(send_token_json) != 2 or amount == 0.0` follow-up branch.  The
sanctions screen is consulted on the first extracted recipient before
any transaction is built.  The handler then selects `"FLR"` as the
approval token when the raw message starts with `"FLR"` and `"WFLR"`
otherwise, reads that token's decimals and the current
`allowance(address, router)`, stages an approval transaction when the
allowance is below the requested amount in base units, and otherwise
builds and stages the native transfer keyed by the incoming message. -/
def handle_send_token (c : Chain) (s : SessionState) (message : String)
    (userAddress : String) (sanctioned : List String)
    (parse1 parse2 : Option (String × ℚ)) : SendResp × SessionState :=
  match parse1 with
  | none => (.followUp, s)
  | some (to_address1, _) =>
    if is_sanctioned_address sanctioned to_address1 then (.refusal, s)
    else
      match parse2 with
      | none => (.followUp, s)
      | some (to_address, amount) =>
        let from_token_for_approval := if strStartsWith message "FLR" then "FLR" else "WFLR"
        match get_token_address from_token_for_approval with
        | Except.error e => (.errorResp e, s)
        | Except.ok token_address =>
          let decimals := c.decimals token_address
          let amount_in_token_units := toBaseUnits amount decimals
          let allowance := c.allowance token_address userAddress BLAZESWAP_ROUTER_ADDRESS
          if allowance < amount_in_token_units then
            match approve_token c from_token_for_approval amount userAddress with
            | Except.error e => (.errorResp e, s)
            | Except.ok approval_tx =>
              (.approvalPreview amount from_token_for_approval,
               add_tx_to_queue s
                 ("Approve " ++ from_token_for_approval ++ " for swap") approval_tx)
          else
            match create_send_flr_tx to_address amount with
            | Except.error e => (.errorResp e, s)
            | Except.ok tx =>
              (.sendPreview (toBaseUnits amount 18) to_address,
               add_tx_to_queue s message tx)

/-! ## Rendered previews (`chat.py:496-499`)

The approval preview instructs the user to type CONFIRM while the
staged trigger message is `"Approve <token> for swap"`.  The float
formatting applied to the amount by the f-string is abstracted as an
arbitrary function `fmt`. -/

/-- The final instruction line of every transaction preview. -/
def confirmInstruction : String := "Type CONFIRM to proceed."

/-- The approval preview text
`f"Transaction Preview (1/2): Approve {amount} {token} for trading on BlazeDEX\nType CONFIRM to proceed."`
(`chat.py:496-499`). -/
def approvalPreviewText (fmt : ℚ → String) (amount : ℚ) (token : String) : String :=
  ("Transaction Preview (1/2): Approve " ++ fmt amount ++ " " ++ token ++
    " for trading on BlazeDEX" ++ "\n") ++ confirmInstruction

/-! ## Session histories (for the staging-queue invariant) -/

/-- One interaction that can touch the staged transaction: a handler
staging a built transaction, a full dispatcher step on an incoming
message, or an explicit reset. -/
inductive SessionOp where
  | stage (msg : String) (tx : BuiltTx)
  | chatMsg (c : Chain) (msg : String)
  | reset

/-- Apply one session operation to the state. -/
def applyOp (s : SessionState) : SessionOp → SessionState
  | .stage m t => add_tx_to_queue s m t
  | .chatMsg c m => (chatStep c s m).2
  | .reset => blockchain_reset s

/-- The initial session state: nothing staged, no attestation pending. -/
def initialSession : SessionState :=
  { txQueue := [], attestationRequested := false }

/-- Run a session history from the initial state. -/
def runOps (ops : List SessionOp) : SessionState :=
  ops.foldl applyOp initialSession

/-! ## Test fixtures -/

/-- A concrete built transaction for witnesses. -/
def testTx : BuiltTx := .nativeTransfer "0x0000000000000000000000000000000000000001" 5

/-- A second concrete built transaction for witnesses. -/
def testTx2 : BuiltTx := .nativeTransfer "0x0000000000000000000000000000000000000002" 7

/-- A concrete chain oracle for witnesses: every token has 18 decimals,
all allowances are zero, the router quote call fails, and the RPC
accepts submissions. -/
def testChain : Chain :=
  { decimals := fun _ => 18
    allowance := fun _ _ _ => 0
    getAmountsOut := fun _ _ => none
    gasPrice := 25
    nonceOf := fun _ => 0
    timeNow := 1000
    wNat := none
    rpcOk := true }

/-- A concrete session with one staged transaction. -/
def testSession : SessionState :=
  { txQueue := [("send 5 FLR to 0x01", testTx)], attestationRequested := false }

/-! ## Dispatcher lemmas -/

/-- A dispatcher step either leaves the staged queue unchanged or
clears it; it never stages anything itself. -/
theorem chatStep_txQueue (c : Chain) (s : SessionState) (msg : String) :
    (chatStep c s msg).2.txQueue = s.txQueue ∨ (chatStep c s msg).2.txQueue = [] := by
  by_cases h1 : strStartsWith msg "/"
  · by_cases h2 : msg = "/reset"
    · subst h2
      simp [chatStep, h1, blockchain_reset]
    · simp [chatStep, h1, h2]
  · cases hq : s.txQueue.getLast? with
    | none =>
      by_cases h3 : s.attestationRequested <;> simp [chatStep, h1, hq, h3]
    | some p =>
      obtain ⟨pm, ptx⟩ := p
      by_cases h4 : msg = pm
      · subst h4
        simp [chatStep, send_tx_in_queue, h1, hq]
      · by_cases h3 : s.attestationRequested <;>
          simp [chatStep, h1, hq, h4, h3]

/-- From a state whose queue is exactly `[(m, tx)]`, a dispatcher step
submits a transaction only when the incoming message is exactly `m`,
and then it submits exactly `tx`. -/
theorem chatStep_txSent_iff (c : Chain) (s : SessionState) (m msg : String)
    (tx t2 : BuiltTx) (ok : Bool) (hq : s.txQueue = [(m, tx)]) :
    (chatStep c s msg).1 = .txSent t2 ok →
      msg = m ∧ t2 = tx ∧ ok = c.rpcOk := by
  have hlast : s.txQueue.getLast? = some (m, tx) := by rw [hq]; rfl
  intro h
  by_cases h1 : strStartsWith msg "/"
  · by_cases h2 : msg = "/reset"
    · subst h2
      simp [chatStep, h1] at h
    · simp [chatStep, h1, h2] at h
  · by_cases h4 : msg = m
    · subst h4
      simp [chatStep, send_tx_in_queue, h1, hlast] at h
      exact ⟨rfl, h.1.symm, h.2.symm⟩
    · by_cases h3 : s.attestationRequested <;>
        simp [chatStep, h1, hlast, h4, h3] at h

/-- Claim C1: with a staged transaction whose trigger message is `m`,
processing an incoming non-command message equal to `m` submits exactly
the staged transaction; processing any other non-command message does
not submit it, leaves the staged entry untouched, and (when no
attestation is pending) falls through to normal routing.  The
comparison in `chatStep` is Lean string equality: exact, case-sensitive
and without trimming. -/
theorem chat_confirm_exact_match
    (c : Chain) (s : SessionState) (m : String) (tx : BuiltTx) (msg : String)
    (hq : s.txQueue = [(m, tx)]) (hs : strStartsWith msg "/" = false) :
    (msg = m → chatStep c s msg = (.txSent tx c.rpcOk, { s with txQueue := [] }))
    ∧ (msg ≠ m →
        (chatStep c s msg).2.txQueue = s.txQueue
        ∧ (∀ t2 ok, (chatStep c s msg).1 ≠ .txSent t2 ok)
        ∧ (s.attestationRequested = false → chatStep c s msg = (.routed, s))) := by
  have hlast : s.txQueue.getLast? = some (m, tx) := by rw [hq]; rfl
  constructor
  · intro he
    subst he
    simp [chatStep, send_tx_in_queue, hs, hlast]
  · intro hne
    refine ⟨?_, ?_, ?_⟩
    · by_cases h3 : s.attestationRequested <;>
        simp [chatStep, hs, hlast, hne, h3]
    · intro t2 ok
      exact fun h => absurd (chatStep_txSent_iff c s m msg tx t2 ok hq h).1 hne
    · intro hatt
      simp [chatStep, hs, hlast, hne, hatt]

/-- Witness for C1 at a concrete state: the verbatim trigger message
submits the staged transaction; a message differing only in case does
not, and is routed with the stage untouched. -/
theorem chat_confirm_exact_match_witness :
    chatStep testChain testSession "send 5 FLR to 0x01"
      = (.txSent testTx true, { txQueue := [], attestationRequested := false })
    ∧ chatStep testChain testSession "Send 5 FLR to 0x01" = (.routed, testSession) := by
  refine ⟨?_, ?_⟩
  · exact (chat_confirm_exact_match testChain testSession "send 5 FLR to 0x01" testTx
      "send 5 FLR to 0x01" rfl (by decide)).1 rfl
  · exact ((chat_confirm_exact_match testChain testSession "send 5 FLR to 0x01" testTx
      "Send 5 FLR to 0x01" rfl (by decide)).2 (by decide)).2.2 rfl

/-! ## Claim C5 -/

/-- Applying any session operation to a state with at most one staged
transaction leaves at most one staged transaction. -/
theorem applyOp_txQueue_length (s : SessionState) (op : SessionOp)
    (h : s.txQueue.length ≤ 1) : (applyOp s op).txQueue.length ≤ 1 := by
  cases op with
  | stage m t => exact Nat.le_refl 1
  | reset => exact Nat.zero_le 1
  | chatMsg c m =>
    rcases chatStep_txQueue c s m with hh | hh
    · rw [applyOp, hh]
      exact h
    · rw [applyOp, hh]
      exact Nat.zero_le 1

/-- Claim C5: in every session state reachable by a history of staging
steps, dispatcher steps and resets, at most one transaction is pending
confirmation; and immediately after staging `(m, t)` over any previous
state, the only transaction a dispatcher step can submit is `t`, on the
exact message `m` — every earlier staged transaction has been
discarded. -/
theorem staging_queue_at_most_one
    (ops : List SessionOp) (s : SessionState) (m msg : String) (t t2 : BuiltTx)
    (c : Chain) (ok : Bool) :
    (runOps ops).txQueue.length ≤ 1
    ∧ ((chatStep c (add_tx_to_queue s m t) msg).1 = .txSent t2 ok →
        msg = m ∧ t2 = t ∧ ok = c.rpcOk) := by
  constructor
  · have hgen : ∀ (l : List SessionOp) (st : SessionState),
        st.txQueue.length ≤ 1 → (l.foldl applyOp st).txQueue.length ≤ 1 := by
      intro l
      induction l with
      | nil => intro st h; exact h
      | cons op rest ih =>
        intro st h
        exact ih _ (applyOp_txQueue_length st op h)
    exact hgen ops initialSession (Nat.zero_le 1)
  · exact chatStep_txSent_iff c (add_tx_to_queue s m t) m msg t t2 ok rfl

/-- Witness for C5: a history that stages twice keeps at most one
pending transaction, and after restaging only the latest transaction is
submitted, on its own trigger. -/
theorem staging_queue_at_most_one_witness :
    (runOps [SessionOp.stage "a" testTx, SessionOp.stage "b" testTx2]).txQueue.length ≤ 1
    ∧ ("b" = "b" ∧ testTx2 = testTx2 ∧ true = testChain.rpcOk) :=
  ⟨(staging_queue_at_most_one [SessionOp.stage "a" testTx, SessionOp.stage "b" testTx2]
      testSession "b" "b" testTx2 testTx2 testChain true).1,
   (staging_queue_at_most_one [] testSession "b" "b" testTx2 testTx2 testChain true).2
      (by decide)⟩

/-! ## Claim C2 -/

/-- Is a built transaction one of the three router swap calls? -/
def isSwapBuilt : BuiltTx → Bool
  | .swapExactETHForTokens .. => true
  | .swapExactTokensForETH .. => true
  | .swapExactTokensForTokens .. => true
  | _ => false

/-- When both symbols resolve, `get_swap_quote` always returns a quote:
router failure is replaced by the simulated value, never raised. -/
theorem get_swap_quote_isOk (c : Chain) (ft tt : String) (am : ℚ) (fa ta : String)
    (hf : get_token_address ft = Except.ok fa)
    (ht : get_token_address tt = Except.ok ta) :
    ∃ out, get_swap_quote c ft tt am = Except.ok out := by
  simp only [get_swap_quote, get_token_address_strUpper, hf, ht]
  split
  · exact ⟨_, rfl⟩
  · exact ⟨_, rfl⟩

/-- For a non-native symbol that resolves, `approve_token` builds the
`approve(router, amount_wei)` transaction. -/
theorem approve_token_ok (c : Chain) (ft : String) (am : ℚ) (userAddress fa : String)
    (hftU : strUpper ft ≠ "FLR") (hf : get_token_address ft = Except.ok fa) :
    approve_token c ft am userAddress
      = Except.ok (.approve fa BLAZESWAP_ROUTER_ADDRESS
          (toBaseUnits am (c.decimals fa)) userAddress 100000 c.gasPrice
          (c.nonceOf userAddress)) := by
  simp only [approve_token, if_neg hftU, get_token_address_strUpper, hf]

/-- In the allowance-gate branch of `handle_token_swap`
(`chat.py:466-500`): with a resolvable non-native source token and a
freshly read allowance below the requested amount in base units, the
handler stages exactly the approval transaction under the trigger
message `"Approve <token> for swap"` and returns the approval
preview. -/
theorem handle_token_swap_approval
    (c : Chain) (s : SessionState) (message userAddress : String)
    (ft tt : String) (am : ℚ) (fa ta : String)
    (hftU : strUpper ft ≠ "FLR")
    (hf : get_token_address ft = Except.ok fa)
    (ht : get_token_address tt = Except.ok ta)
    (hfe : ft ≠ "") (hte : tt ≠ "") (ham : am ≠ 0)
    (hlow : c.allowance fa userAddress BLAZESWAP_ROUTER_ADDRESS
      < toBaseUnits am (c.decimals fa)) :
    handle_token_swap c s message userAddress (some (ft, tt, am))
      = (.approvalPreview am ft,
         add_tx_to_queue s ("Approve " ++ ft ++ " for swap")
           (.approve fa BLAZESWAP_ROUTER_ADDRESS
             (toBaseUnits am (c.decimals fa)) userAddress 100000 c.gasPrice
             (c.nonceOf userAddress))) := by
  have hne : ft ≠ "FLR" := by
    intro hh
    exact hftU (hh ▸ (by decide : strUpper "FLR" = "FLR"))
  obtain ⟨⟨eo, pi⟩, hquote⟩ := get_swap_quote_isOk c ft tt am fa ta hf ht
  have happrove := approve_token_ok c ft am userAddress fa hftU hf
  simp [handle_token_swap, hquote, hfe, hte, ham, hne, hf, happrove, hlow,
    add_tx_to_queue]

/-- Claim C2: for a swap request whose source token is not the native
asset, the handler never stages a swap transaction while the freshly
read allowance of `(account, router)` is below the requested amount in
the source token's base units — in that case it stages only an approval
transaction and returns the approval preview; and any invocation that
stages a swap transaction read an allowance at least the requested
amount. -/
theorem swap_allowance_gate
    (c : Chain) (s : SessionState) (message userAddress : String)
    (ft tt : String) (am : ℚ) (fa ta : String)
    (hftU : strUpper ft ≠ "FLR")
    (hf : get_token_address ft = Except.ok fa)
    (ht : get_token_address tt = Except.ok ta)
    (hfe : ft ≠ "") (hte : tt ≠ "") (ham : am ≠ 0) :
    (c.allowance fa userAddress BLAZESWAP_ROUTER_ADDRESS
        < toBaseUnits am (c.decimals fa) →
      ∃ atx, approve_token c ft am userAddress = Except.ok atx ∧
        handle_token_swap c s message userAddress (some (ft, tt, am))
          = (.approvalPreview am ft,
             add_tx_to_queue s ("Approve " ++ ft ++ " for swap") atx))
    ∧ (∀ m stx,
        (handle_token_swap c s message userAddress (some (ft, tt, am))).2.txQueue
            = [(m, stx)] →
        isSwapBuilt stx = true →
        toBaseUnits am (c.decimals fa)
          ≤ c.allowance fa userAddress BLAZESWAP_ROUTER_ADDRESS) := by
  have happrove := approve_token_ok c ft am userAddress fa hftU hf
  have key := handle_token_swap_approval c s message userAddress ft tt am fa ta
    hftU hf ht hfe hte ham
  constructor
  · intro hlow
    exact ⟨_, happrove, key hlow⟩
  · intro m stx hqueue hswap
    by_cases hlow : c.allowance fa userAddress BLAZESWAP_ROUTER_ADDRESS
        < toBaseUnits am (c.decimals fa)
    · exfalso
      rw [key hlow] at hqueue
      simp [add_tx_to_queue] at hqueue
      rw [← hqueue.2] at hswap
      exact absurd hswap (by simp [isSwapBuilt])
    · exact le_of_not_lt hlow

set_option maxRecDepth 400000 in
unseal Rat.mul Rat.inv Rat.add Rat.sub in
/-- Witness for C2: with zero allowance, a 5 USDT → WFLR swap request
stages the USDT approval transaction, not a swap. -/
theorem swap_allowance_gate_witness :
    ∃ atx, approve_token testChain "USDT" 5 "0xme" = Except.ok atx ∧
      handle_token_swap testChain initialSession "swap 5 USDT to WFLR" "0xme"
        (some ("USDT", "WFLR", 5))
        = (.approvalPreview 5 "USDT",
           add_tx_to_queue initialSession ("Approve " ++ "USDT" ++ " for swap") atx) :=
  (swap_allowance_gate testChain initialSession "swap 5 USDT to WFLR" "0xme"
    "USDT" "WFLR" 5 "0x0B38e83B86d491735fEaa0a791F65c2B99535396"
    "0x1D80c49BbBCd1C0911346656B529DF9E5c2F783d"
    (by decide) (by decide) (by decide) (by decide) (by decide) (by decide)).1
    (by decide)

/-! ## Claim C9 -/

/-- From a state whose queue is exactly `[(m, tx)]`, a non-command
message different from `m` leaves the staged entry untouched and, when
no attestation is pending, falls through to the semantic router. -/
theorem chatStep_fallthrough (c : Chain) (s : SessionState) (m : String)
    (tx : BuiltTx) (msg : String) (hq : s.txQueue = [(m, tx)])
    (hsw : strStartsWith msg "/" = false) (hne : msg ≠ m) :
    (chatStep c s msg).2.txQueue = s.txQueue
    ∧ (s.attestationRequested = false → chatStep c s msg = (.routed, s)) := by
  have hlast : s.txQueue.getLast? = some (m, tx) := by rw [hq]; rfl
  constructor
  · by_cases h3 : s.attestationRequested <;> simp [chatStep, hsw, hlast, hne, h3]
  · intro hatt
    simp [chatStep, hsw, hlast, hne, hatt]

/-- No approval trigger message equals `"CONFIRM"`: the lengths differ
for every token name. -/
theorem approve_trigger_ne_confirm (t : String) :
    ("Approve " ++ t ++ " for swap") ≠ "CONFIRM" := by
  intro h
  have hl := congrArg String.length h
  simp only [String.length_append, show ("Approve ").length = 8 from rfl,
    show (" for swap").length = 9 from rfl, show ("CONFIRM").length = 7 from rfl] at hl
  omega

/-- Claim C9 (implicit): when the swap handler stages an approval, the
staged trigger is the fixed string `"Approve <token> for swap"` while
the returned preview ends with the instruction to type CONFIRM; the
message `"CONFIRM"` never equals the trigger and never submits the
approval — the dispatcher leaves it staged and (with no attestation
pending) routes `"CONFIRM"` to the intent classifier — and only a
message exactly equal to the trigger submits the staged approval. -/
theorem approval_trigger_never_confirm
    (c c2 : Chain) (s : SessionState) (message userAddress : String)
    (ft tt : String) (am : ℚ) (fa ta : String)
    (hftU : strUpper ft ≠ "FLR")
    (hf : get_token_address ft = Except.ok fa)
    (ht : get_token_address tt = Except.ok ta)
    (hfe : ft ≠ "") (hte : tt ≠ "") (ham : am ≠ 0)
    (hlow : c.allowance fa userAddress BLAZESWAP_ROUTER_ADDRESS
      < toBaseUnits am (c.decimals fa)) :
    ∃ atx,
      handle_token_swap c s message userAddress (some (ft, tt, am))
        = (.approvalPreview am ft,
           add_tx_to_queue s ("Approve " ++ ft ++ " for swap") atx)
      ∧ (∀ fmt, ∃ p, approvalPreviewText fmt am ft = p ++ confirmInstruction)
      ∧ ("Approve " ++ ft ++ " for swap") ≠ "CONFIRM"
      ∧ (∀ t2 ok, (chatStep c2
            (add_tx_to_queue s ("Approve " ++ ft ++ " for swap") atx)
            "CONFIRM").1 ≠ .txSent t2 ok)
      ∧ (chatStep c2 (add_tx_to_queue s ("Approve " ++ ft ++ " for swap") atx)
            "CONFIRM").2.txQueue
          = [("Approve " ++ ft ++ " for swap", atx)]
      ∧ (s.attestationRequested = false →
          chatStep c2 (add_tx_to_queue s ("Approve " ++ ft ++ " for swap") atx)
              "CONFIRM"
            = (.routed, add_tx_to_queue s ("Approve " ++ ft ++ " for swap") atx))
      ∧ (∀ msg t2 ok, (chatStep c2
            (add_tx_to_queue s ("Approve " ++ ft ++ " for swap") atx) msg).1
              = .txSent t2 ok →
          msg = ("Approve " ++ ft ++ " for swap") ∧ t2 = atx) := by
  have hne : "CONFIRM" ≠ ("Approve " ++ ft ++ " for swap") :=
    fun h => approve_trigger_ne_confirm ft h.symm
  have hsw : strStartsWith "CONFIRM" "/" = false := by decide
  have hfall := chatStep_fallthrough c2
    (add_tx_to_queue s ("Approve " ++ ft ++ " for swap")
      (.approve fa BLAZESWAP_ROUTER_ADDRESS (toBaseUnits am (c.decimals fa))
        userAddress 100000 c.gasPrice (c.nonceOf userAddress)))
    ("Approve " ++ ft ++ " for swap")
    (.approve fa BLAZESWAP_ROUTER_ADDRESS (toBaseUnits am (c.decimals fa))
      userAddress 100000 c.gasPrice (c.nonceOf userAddress))
    "CONFIRM" rfl hsw hne
  refine ⟨.approve fa BLAZESWAP_ROUTER_ADDRESS (toBaseUnits am (c.decimals fa))
      userAddress 100000 c.gasPrice (c.nonceOf userAddress),
    handle_token_swap_approval c s message userAddress ft tt am fa ta
      hftU hf ht hfe hte ham hlow, fun fmt => ⟨_, rfl⟩,
    approve_trigger_ne_confirm ft, ?_, ?_, ?_, ?_⟩
  · intro t2 ok h
    exact hne (chatStep_txSent_iff c2 _ _ _ _ t2 ok rfl h).1
  · exact hfall.1
  · exact fun hatt => hfall.2 hatt
  · intro msg t2 ok h
    have hh := chatStep_txSent_iff c2 _ _ msg _ t2 ok rfl h
    exact ⟨hh.1, hh.2.1⟩

set_option maxRecDepth 400000 in
unseal Rat.mul Rat.inv Rat.add Rat.sub in
/-- Witness for C9: a 3 JOULE → USDT swap request with zero allowance
stages the approval under the trigger `"Approve JOULE for swap"`, which
differs from `"CONFIRM"`; the follow-up message `"CONFIRM"` is routed
to the classifier, and the handler returned the approval preview. -/
theorem approval_trigger_never_confirm_witness :
    "Approve JOULE for swap" ≠ "CONFIRM"
    ∧ (chatStep testChain
        (handle_token_swap testChain initialSession "swap 3 JOULE to USDT" "0xme"
          (some ("JOULE", "USDT", 3))).2 "CONFIRM").1 = ChatOutcome.routed
    ∧ (handle_token_swap testChain initialSession "swap 3 JOULE to USDT" "0xme"
        (some ("JOULE", "USDT", 3))).1 = SwapResp.approvalPreview 3 "JOULE" := by
  obtain ⟨atx, h1, -, h3, -, -, h6, -⟩ :=
    approval_trigger_never_confirm testChain testChain initialSession
      "swap 3 JOULE to USDT" "0xme" "JOULE" "USDT" 3
      "0xE6505f92583103AF7ed9974DEC451A7Af4e3A3bE"
      "0x0B38e83B86d491735fEaa0a791F65c2B99535396"
      (by decide) (by decide) (by decide) (by decide) (by decide) (by decide)
      (by decide)
  refine ⟨h3, ?_, ?_⟩
  · rw [congrArg Prod.snd h1, h6 rfl]
  · rw [congrArg Prod.fst h1]

/-! ## Claim C3 -/

/-- Amended C3: when both symbols resolve and the on-chain router call
fails, `get_swap_quote` does not propagate an error — it returns the
simulated quote `amount * 1.5` (`amount` when the uppercased symbols
coincide) with price impact `0.1` (`blazedex.py:286-303`); an error
propagates only when a symbol fails to resolve. -/
theorem quote_simulated_on_router_failure
    (c : Chain) (ft tt : String) (am : ℚ) (fa ta : String)
    (hf : get_token_address ft = Except.ok fa)
    (ht : get_token_address tt = Except.ok ta)
    (hrouter : ∀ a p, c.getAmountsOut a p = none) :
    get_swap_quote c ft tt am
      = Except.ok
          (if strUpper ft ≠ strUpper tt then f64round (am * (3/2)) else am,
           f64round (1/10)) := by
  simp only [get_swap_quote, get_token_address_strUpper, hf, ht, hrouter]

set_option maxRecDepth 400000 in
unseal Rat.mul Rat.inv Rat.add Rat.sub in
/-- Counterexample to C3 as stated: with the router call reverting, the
quote for 2 WFLR → USDT is the fabricated `Except.ok` value 3 (= 2 ×
1.5, price impact the binary64 of 0.1) — no `NoLiquidity` error reaches
the caller. -/
theorem quote_fabricated_counterexample :
    get_swap_quote testChain "WFLR" "USDT" 2
      = Except.ok (3, f64round (1/10)) := by decide

set_option maxRecDepth 400000 in
unseal Rat.mul Rat.inv Rat.add Rat.sub in
/-- Witness for the amended C3 at a different input: 4 BNZ → PHIL under
a failing router yields the simulated quote 6. -/
theorem quote_simulated_on_router_failure_witness :
    get_swap_quote testChain "BNZ" "PHIL" 4
      = Except.ok (6, f64round (1/10)) := by
  rw [quote_simulated_on_router_failure testChain "BNZ" "PHIL" 4
    "0xfD3449E8Ee31117a848D41Ee20F497a9bCb53164"
    "0x932E691aA8c8306C4bB0b19F3f00a284371be8Ba"
    (by decide) (by decide) (fun a p => rfl)]
  decide

/-! ## Claim C8 -/

/-- Claim C8: a transfer request whose extracted recipient is on the
sanctions list terminates with the refusal response before any
transaction is built: the result and the session state are independent
of every chain oracle and of the second extraction, and the staged
transaction state is returned unchanged. -/
theorem sanctioned_recipient_blocks_transfer
    (c : Chain) (s : SessionState) (message userAddress : String)
    (sanctioned : List String) (to1 : String) (am1 : ℚ)
    (parse2 : Option (String × ℚ))
    (hs : is_sanctioned_address sanctioned to1 = true) :
    handle_send_token c s message userAddress sanctioned
        (some (to1, am1)) parse2
      = (.refusal, s) := by
  simp [handle_send_token, hs]

/-- Witness for C8: a recipient on the sanctions list (matched after
lowercasing) is refused and the staged state is untouched. -/
theorem sanctioned_recipient_blocks_transfer_witness :
    handle_send_token testChain testSession "send 1 FLR to 0xBADBAD" "0xme"
        ["0xbadbad"] (some ("0xBADBAD", 1)) (some ("0xBADBAD", 1))
      = (.refusal, testSession) :=
  sanctioned_recipient_blocks_transfer testChain testSession
    "send 1 FLR to 0xBADBAD" "0xme" ["0xbadbad"] "0xBADBAD" 1
    (some ("0xBADBAD", 1)) (by decide)

/-! ## Claim C10 -/

/-- Is a built transaction a native transfer? -/
def isNativeTransferBuilt : BuiltTx → Bool
  | .nativeTransfer .. => true
  | _ => false

/-- Claim C10 (implicit): for a transfer request whose message does not
start with `"FLR"`, the handler gates the native send on the WFLR
allowance for the swap router: when the freshly read allowance is below
the requested amount in WFLR base units it stages a WFLR approval
transaction instead of the transfer, and a native send transaction is
staged only when that allowance covers the amount. -/
theorem send_token_gated_on_wflr_allowance
    (c : Chain) (s : SessionState) (message userAddress : String)
    (sanctioned : List String) (to1 to2 : String) (am1 am2 : ℚ)
    (hmsg : strStartsWith message "FLR" = false)
    (hns : is_sanctioned_address sanctioned to1 = false) :
    (c.allowance "0x1D80c49BbBCd1C0911346656B529DF9E5c2F783d" userAddress
          BLAZESWAP_ROUTER_ADDRESS
        < toBaseUnits am2
            (c.decimals "0x1D80c49BbBCd1C0911346656B529DF9E5c2F783d") →
      handle_send_token c s message userAddress sanctioned
          (some (to1, am1)) (some (to2, am2))
        = (.approvalPreview am2 "WFLR",
           add_tx_to_queue s ("Approve " ++ "WFLR" ++ " for swap")
             (.approve "0x1D80c49BbBCd1C0911346656B529DF9E5c2F783d"
               BLAZESWAP_ROUTER_ADDRESS
               (toBaseUnits am2
                 (c.decimals "0x1D80c49BbBCd1C0911346656B529DF9E5c2F783d"))
               userAddress 100000 c.gasPrice (c.nonceOf userAddress))))
    ∧ (∀ m tx,
        (handle_send_token c s message userAddress sanctioned
            (some (to1, am1)) (some (to2, am2))).2.txQueue = [(m, tx)] →
        isNativeTransferBuilt tx = true →
        toBaseUnits am2 (c.decimals "0x1D80c49BbBCd1C0911346656B529DF9E5c2F783d")
          ≤ c.allowance "0x1D80c49BbBCd1C0911346656B529DF9E5c2F783d" userAddress
              BLAZESWAP_ROUTER_ADDRESS) := by
  have hwf : get_token_address "WFLR"
      = Except.ok "0x1D80c49BbBCd1C0911346656B529DF9E5c2F783d" := by decide
  have happrove := approve_token_ok c "WFLR" am2 userAddress
    "0x1D80c49BbBCd1C0911346656B529DF9E5c2F783d" (by decide) hwf
  have key : c.allowance "0x1D80c49BbBCd1C0911346656B529DF9E5c2F783d" userAddress
        BLAZESWAP_ROUTER_ADDRESS
      < toBaseUnits am2
          (c.decimals "0x1D80c49BbBCd1C0911346656B529DF9E5c2F783d") →
      handle_send_token c s message userAddress sanctioned
          (some (to1, am1)) (some (to2, am2))
        = (.approvalPreview am2 "WFLR",
           add_tx_to_queue s ("Approve " ++ "WFLR" ++ " for swap")
             (.approve "0x1D80c49BbBCd1C0911346656B529DF9E5c2F783d"
               BLAZESWAP_ROUTER_ADDRESS
               (toBaseUnits am2
                 (c.decimals "0x1D80c49BbBCd1C0911346656B529DF9E5c2F783d"))
               userAddress 100000 c.gasPrice (c.nonceOf userAddress))) := by
    intro hlow
    simp [handle_send_token, hns, hmsg, hwf, hlow, happrove, add_tx_to_queue]
  refine ⟨key, ?_⟩
  intro m tx hqueue hnat
  by_cases hlow : c.allowance "0x1D80c49BbBCd1C0911346656B529DF9E5c2F783d"
      userAddress BLAZESWAP_ROUTER_ADDRESS
      < toBaseUnits am2 (c.decimals "0x1D80c49BbBCd1C0911346656B529DF9E5c2F783d")
  · exfalso
    rw [key hlow] at hqueue
    simp [add_tx_to_queue] at hqueue
    rw [← hqueue.2] at hnat
    exact absurd hnat (by simp [isNativeTransferBuilt])
  · exact le_of_not_lt hlow

set_option maxRecDepth 400000 in
unseal Rat.mul Rat.inv Rat.add Rat.sub in
/-- Witness for C10: a 2 FLR transfer request (message not starting
with `"FLR"`) with zero WFLR allowance stages the WFLR approval, not
the transfer. -/
theorem send_token_gated_on_wflr_allowance_witness :
    handle_send_token testChain initialSession "send 2 FLR to 0xA" "0xme"
        ["0xbadbad"]
        (some ("0xAAAAAAAAAAAAAAAAAAAAAAAAAAAAAAAAAAAAAAAA", 2))
        (some ("0xAAAAAAAAAAAAAAAAAAAAAAAAAAAAAAAAAAAAAAAA", 2))
      = (.approvalPreview 2 "WFLR",
         add_tx_to_queue initialSession ("Approve " ++ "WFLR" ++ " for swap")
           (.approve "0x1D80c49BbBCd1C0911346656B529DF9E5c2F783d"
             BLAZESWAP_ROUTER_ADDRESS
             (toBaseUnits 2
               (testChain.decimals "0x1D80c49BbBCd1C0911346656B529DF9E5c2F783d"))
             "0xme" 100000 testChain.gasPrice (testChain.nonceOf "0xme"))) :=
  (send_token_gated_on_wflr_allowance testChain initialSession
    "send 2 FLR to 0xA" "0xme" ["0xbadbad"]
    "0xAAAAAAAAAAAAAAAAAAAAAAAAAAAAAAAAAAAAAAAA"
    "0xAAAAAAAAAAAAAAAAAAAAAAAAAAAAAAAAAAAAAAAA" 2 2
    (by decide) (by decide)).1 (by decide)

/-! ## Claim C4 -/

set_option maxRecDepth 400000 in
unseal Rat.mul Rat.inv Rat.add Rat.sub in
/-- Claim C4 evaluated at the failing input: for the user-specified
decimal amount 1.1 (whose parsed binary64 value is `f64round (11/10)`)
and 18 token decimals, `int(amount * (10 ** decimals))` yields
1100000000000000128 base units — 128 base units MORE than
1.1 × 10¹⁸ = 1100000000000000000, because the binary64 product rounds
upward.  The conversion is not a pure round-toward-zero truncation of
x × 10^d and can exceed the amount the user specified. -/
theorem base_units_conversion_exceeds_user_amount :
    toBaseUnits (f64round (11/10)) 18 = 1100000000000000128
    ∧ (11/10 : ℚ) * 10 ^ 18 = 1100000000000000000
    ∧ (1100000000000000128 : ℤ) > 1100000000000000000 := by decide

/-! ## Claim C6 -/

/-- A chain oracle whose router quotes 10¹⁸ + 100 destination base
units, with wall-clock time 1000. -/
def quoteChain : Chain :=
  { decimals := fun _ => 6
    allowance := fun _ _ _ => 0
    getAmountsOut := fun _ _ => some (10 ^ 18 + 100)
    gasPrice := 25
    nonceOf := fun _ => 7
    timeNow := 1000
    wNat := none
    rpcOk := true }

set_option maxRecDepth 1000000 in
unseal Rat.mul Rat.inv Rat.add Rat.sub in
/-- Claim C6 evaluated at the failing input: swapping 10 FLR → USDT
with the default slippage 0.5 when the router quotes
E = 10¹⁸ + 100 base units out.  The deadline is `timeNow + 1200` and
the native→token router function carries `value = 10 × 10¹⁸`, as the
claim states, but the minimum-output parameter is 995000000000000128 —
computed by `int(amounts_out[1] * (1 - slippage / 100))` under binary64
arithmetic — and NOT `floor(E × (1 − 0.5/100)) = 995000000000000099`. -/
theorem min_out_is_not_exact_floor :
    SLIPPAGE_DEFAULT = 1/2
    ∧ create_swap_tx quoteChain "FLR" "USDT" 10 "0xme" SLIPPAGE_DEFAULT
      = Except.ok (.swapExactETHForTokens 995000000000000128
          ["0x1D80c49BbBCd1C0911346656B529DF9E5c2F783d",
           "0x0B38e83B86d491735fEaa0a791F65c2B99535396"]
          "0xme" (1000 + 1200) 10000000000000000000 "0xme" 200000 25 7)
    ∧ Rat.floor (((10 : ℚ) ^ 18 + 100) * (1 - (1/2) / 100)) = 995000000000000099
    ∧ (995000000000000128 : ℤ) ≠ 995000000000000099 := by decide

/-! ## Claim C7 -/

/-- Claim C7 evaluated: the registry entry `eUSDT` exists, yet resolving
the symbol `"eUSDT"` — its own registered casing — fails with the
unknown-token error, because resolution uppercases the symbol to
`"EUSDT"`, which is not a key; the same holds for `sFLR`, `USDC.e` and
`eETH`.  All-uppercase entries such as `WFLR` do resolve in any
casing. -/
theorem registry_mixed_case_key_unreachable :
    TOKEN_ADDRESSES.lookup "eUSDT"
        = some "0x96B41289D90444B8adD57e6F265DB5aE8651DF29"
    ∧ get_token_address "eUSDT" = Except.error "Unknown token symbol: EUSDT"
    ∧ TOKEN_ADDRESSES.lookup "sFLR"
        = some "0x12e605bc104e93B45e1aD99F9e555f659051c2BB"
    ∧ get_token_address "sFLR" = Except.error "Unknown token symbol: SFLR"
    ∧ TOKEN_ADDRESSES.lookup "USDC.e"
        = some "0xFbDa5F676cB37624f28265A144A48B0d6e87d3b6"
    ∧ get_token_address "USDC.e" = Except.error "Unknown token symbol: USDC.E"
    ∧ get_token_address "WFLR"
        = Except.ok "0x1D80c49BbBCd1C0911346656B529DF9E5c2F783d"
    ∧ get_token_address "wflr"
        = Except.ok "0x1D80c49BbBCd1C0911346656B529DF9E5c2F783d"
    ∧ get_token_address "Wflr"
        = Except.ok "0x1D80c49BbBCd1C0911346656B529DF9E5c2F783d" := by decide
